import Mathlib

/-!
Verification of the Aillio R1 V2 device-communication core (`aillio.py`).

This file is a shallow embedding of the core class `AillioR1Demo` from
`src/aillio.py`, together with theorems settling the specification claims
about it.

Modelling conventions:

* Python floats that are only ever assigned integral values (`self.heater`,
  `self.fan`, `self.drum`) are modelled as `ℚ`; Python `int(x)` (truncation
  toward zero) is `itrunc`.
* The three 32-bit-float sensor fields (`bt`, `bt_ror`, `dt`) are stored as
  the raw little-endian 32-bit pattern (`ℕ`) produced by `unpack` with
  format "f"; the IEEE numeric interpretation and the subsequent
  `round(x, 1)` are not modelled, since no claim depends on the numeric
  value of a float field, only on which bytes feed which field and on
  preservation.
* Format "h" of `unpack` (native signed 16-bit) is modelled exactly on the
  two little-endian bytes.
* USB replies are `Option (List ℕ)`: `none` models a failed read
  (`_read_reply` returns `None`); `some []` models an empty reply; both are
  falsy in the Python test `if state1 and state2`.
* Wall-clock time (`time.time()`) is passed in as a parameter `now : ℚ`;
  each operation that in Python sends bytes on the wire also returns the
  list of command frames it sent, so that per-tick I/O can be reasoned
  about.
* Exceptions raised by `unpack` or indexing inside the `try` block of
  `_update_status` are modelled by `Option`-valued reads: a failing read
  aborts the decode, keeping exactly the fields assigned before the
  failure (in Python, assignments executed before the raising statement
  keep their effect; the `except` clause only logs).
* The rate-limit guard subtraction is written with `qsub`, a
  cross-multiplication form of rational subtraction proved equal to
  ordinary subtraction in `qsub_eq_sub`, so that the guard evaluates by
  kernel reduction on concrete inputs.
-/

/-- Truncation toward zero of a rational, the behaviour of Python `int()`
on a float value (`int(8.9) == 8`, `int(-8.9) == -8`). `Int.tdiv` is
truncating division, and `q.den > 0`. -/
def itrunc (q : ℚ) : ℤ := Int.tdiv q.num q.den

/-- Python `max(lo, min(hi, x))` on integers. -/
def clamp (lo hi x : ℤ) : ℤ := max lo (min hi x)

/-- Source constant `AILLIO_CMD_INFO1 = [0x30, 0x02]`. -/
def AILLIO_CMD_INFO1 : List ℤ := [0x30, 0x02]
/-- Source constant `AILLIO_CMD_INFO2 = [0x89, 0x01]`. -/
def AILLIO_CMD_INFO2 : List ℤ := [0x89, 0x01]
/-- Source constant `AILLIO_CMD_STATUS1 = [0x30, 0x01]`. -/
def AILLIO_CMD_STATUS1 : List ℤ := [0x30, 0x01]
/-- Source constant `AILLIO_CMD_STATUS2 = [0x30, 0x03]`. -/
def AILLIO_CMD_STATUS2 : List ℤ := [0x30, 0x03]
/-- Source constant `AILLIO_CMD_HEATER_INCR = [0x34, 0x01, 0xaa, 0xaa]`. -/
def AILLIO_CMD_HEATER_INCR : List ℤ := [0x34, 0x01, 0xaa, 0xaa]
/-- Source constant `AILLIO_CMD_HEATER_DECR = [0x34, 0x02, 0xaa, 0xaa]`. -/
def AILLIO_CMD_HEATER_DECR : List ℤ := [0x34, 0x02, 0xaa, 0xaa]
/-- Source constant `AILLIO_CMD_FAN_INCR = [0x31, 0x01, 0xaa, 0xaa]`. -/
def AILLIO_CMD_FAN_INCR : List ℤ := [0x31, 0x01, 0xaa, 0xaa]
/-- Source constant `AILLIO_CMD_FAN_DECR = [0x31, 0x02, 0xaa, 0xaa]`. -/
def AILLIO_CMD_FAN_DECR : List ℤ := [0x31, 0x02, 0xaa, 0xaa]
/-- Drum absolute-set frame built inline in `set_drum`:
`[0x32, 0x01, value, 0x00]`. -/
def drumCmd (v : ℤ) : List ℤ := [0x32, 0x01, v, 0x00]

/-- Source constant `AILLIO_STATE_OFF = 0x00`. -/
def AILLIO_STATE_OFF : ℕ := 0x00
/-- Source constant `AILLIO_STATE_PH = 0x02`. -/
def AILLIO_STATE_PH : ℕ := 0x02
/-- Source constant `AILLIO_STATE_CHARGE = 0x04`. -/
def AILLIO_STATE_CHARGE : ℕ := 0x04
/-- Source constant `AILLIO_STATE_ROASTING = 0x06`. -/
def AILLIO_STATE_ROASTING : ℕ := 0x06
/-- Source constant `AILLIO_STATE_COOLING = 0x08`. -/
def AILLIO_STATE_COOLING : ℕ := 0x08
/-- Source constant `AILLIO_STATE_SHUTDOWN = 0x09`. -/
def AILLIO_STATE_SHUTDOWN : ℕ := 0x09

/-- Rational subtraction written through `mkRat` (the cross-multiplication
formula); `qsub_eq_sub` below proves it equal to ordinary subtraction on
`ℚ`. The rate-limit guard uses it so that the guard evaluates by kernel
reduction on concrete rationals. -/
def qsub (a b : ℚ) : ℚ := mkRat (a.num * b.den - b.num * a.den) (a.den * b.den)

/-- Source constant `status_update_interval = 0.1` (seconds), i.e. the
rational `1/10`. -/
def status_update_interval : ℚ := mkRat 1 10

/-- Sensor and control snapshot fields of `AillioR1Demo` written by the
decode step of `_update_status` (the "Status Model" of the spec).
Float-typed fields (`bt`, `bt_ror`, `dt`) hold the raw 32-bit
little-endian pattern. -/
structure StatusModel where
  bt : ℕ
  bt_ror : ℕ
  dt : ℕ
  fan_rpm : ℤ
  voltage : ℤ
  heater : ℚ
  fan : ℚ
  drum : ℚ
  state : ℕ
  state_str : String
  deriving DecidableEq, Repr

/-- Mutable object state of `AillioR1Demo` relevant to the claims: the
Status Model, the FIFO command queue (a Python `deque` appended on the
right and popped on the left, here a list appended on the right and popped
at the head), and the last-status-update timestamp. -/
structure RoasterState where
  status : StatusModel
  command_queue : List (List ℤ)
  last_status_update : ℚ
  deriving DecidableEq, Repr

/-- Field values established by `__init__`. -/
def initState : RoasterState :=
  { status :=
      { bt := 0, bt_ror := 0, dt := 0, fan_rpm := 0, voltage := 0,
        heater := 0, fan := 1, drum := 1,
        state := AILLIO_STATE_OFF, state_str := "off" }
    command_queue := []
    last_status_update := 0 }

/-- Python slice `l[a:b]` on a byte sequence. -/
def pyslice (l : List ℕ) (a b : ℕ) : List ℕ := (l.drop a).take (b - a)

/-- Python `unpack` with format "f": requires exactly 4 bytes, else raises
`struct.error` (modelled as `none`); yields the little-endian 32-bit
pattern. -/
def unpackF (bs : List ℕ) : Option ℕ :=
  if bs.length = 4 then
    some (bs.getD 0 0 + 256 * bs.getD 1 0 + 65536 * bs.getD 2 0 +
      16777216 * bs.getD 3 0)
  else none

/-- Python `unpack` with format "h": requires exactly 2 bytes, else raises
`struct.error` (modelled as `none`); yields the signed little-endian
16-bit value. -/
def unpackH (bs : List ℕ) : Option ℤ :=
  if bs.length = 2 then
    some (if bs.getD 0 0 + 256 * bs.getD 1 0 < 32768
          then ((bs.getD 0 0 + 256 * bs.getD 1 0 : ℕ) : ℤ)
          else ((bs.getD 0 0 + 256 * bs.getD 1 0 : ℕ) : ℤ) - 65536)
  else none

/-- Method `_update_state_string`: an if/elif chain over the six known
state bytes; an unrecognized byte falls through every branch and leaves
`state_str` untouched. -/
def update_state_string (m : StatusModel) : StatusModel :=
  if m.state = AILLIO_STATE_OFF then { m with state_str := "off" }
  else if m.state = AILLIO_STATE_PH then { m with state_str := "pre-heating" }
  else if m.state = AILLIO_STATE_CHARGE then { m with state_str := "charge" }
  else if m.state = AILLIO_STATE_ROASTING then { m with state_str := "roasting" }
  else if m.state = AILLIO_STATE_COOLING then { m with state_str := "cooling" }
  else if m.state = AILLIO_STATE_SHUTDOWN then { m with state_str := "shutdown" }
  else m

/-- Body of `_update_status` from the statement `valid = state[41]` on,
over the concatenated reply buffer. Each Python statement that can raise
(indexing out of range, `unpack` on a wrongly-sized slice) is a `match`
whose `none` arm aborts with the fields assigned so far (the enclosing
try/except catches the exception after those assignments took effect, and
only logs). Returns the updated Status Model and the Python return value
(`True` only after the full decode including `_update_state_string`). -/
def decodeStatus (m : StatusModel) (state : List ℕ) : StatusModel × Bool :=
  match state.get? 41 with
  | none => (m, false)
  | some valid =>
    if valid = 10 then
      match unpackF (pyslice state 36 40) with
      | none => (m, false)
      | some btv =>
        let m := { m with bt := btv }
        match unpackF (pyslice state 4 8) with
        | none => (m, false)
        | some rorv =>
          let m := { m with bt_ror := rorv }
          match unpackF (pyslice state 8 12) with
          | none => (m, false)
          | some dtv =>
            let m := { m with dt := dtv }
            match state.get? 26 with
            | none => (m, false)
            | some fanb =>
              let m := { m with fan := (fanb : ℚ) }
              match state.get? 27 with
              | none => (m, false)
              | some heaterb =>
                let m := { m with heater := (heaterb : ℚ) }
                match state.get? 28 with
                | none => (m, false)
                | some drumb =>
                  let m := { m with drum := (drumb : ℚ) }
                  match state.get? 29 with
                  | none => (m, false)
                  | some stateb =>
                    let m := { m with state := stateb }
                    match unpackH (pyslice state 44 46) with
                    | none => (m, false)
                    | some rpmv =>
                      let m := { m with fan_rpm := rpmv }
                      match unpackH (pyslice state 48 50) with
                      | none => (m, false)
                      | some voltv =>
                        let m := { m with voltage := voltv }
                        (update_state_string m, true)
    else (m, false)

/-- Python truthiness of a reply: `None` and an empty byte sequence are
falsy, any non-empty sequence is truthy. -/
def truthy : Option (List ℕ) → Bool
  | none => false
  | some [] => false
  | some (_ :: _) => true

/-- Method `_update_status`: rate-limit guard, unconditional timestamp
update once the guard passes, two status-request sends, two reads
(supplied as `r1`, `r2`), truthiness test, concatenation and decode.
Result: (new object state, Python return value, command frames sent on
the wire). -/
def update_status (s : RoasterState) (now : ℚ) (r1 r2 : Option (List ℕ)) :
    RoasterState × Bool × List (List ℤ) :=
  if qsub now s.last_status_update < status_update_interval then
    (s, false, [])
  else
    let s := { s with last_status_update := now }
    let sent := [AILLIO_CMD_STATUS1, AILLIO_CMD_STATUS2]
    if truthy r1 && truthy r2 then
      let buf := r1.getD [] ++ r2.getD []
      let r := decodeStatus s.status buf
      ({ s with status := r.1 }, r.2, sent)
    else
      (s, false, sent)

/-- Method `_process_command_queue`: pop and transmit at most one queued
command per call. Returns the new state and the frames sent. -/
def process_command_queue (s : RoasterState) : RoasterState × List (List ℤ) :=
  match s.command_queue with
  | [] => (s, [])
  | c :: rest => ({ s with command_queue := rest }, [c])

/-- Method `update_readings`: one scheduler tick. It drains the queue (at
most one command) and then attempts a status update; there is no early
return between the two steps. Result: (new object state, Python return
value, command frames sent on the wire). -/
def update_readings (s : RoasterState) (now : ℚ) (r1 r2 : Option (List ℕ)) :
    RoasterState × Bool × List (List ℤ) :=
  let p := process_command_queue s
  let u := update_status p.1 now r1 r2
  (u.1, u.2.1, p.2 ++ u.2.2)

/-- Method `set_heater(value)`: truncate and clamp to `[0, 9]`, diff
against `int(self.heater)`, enqueue `diff` step frames, then optimistically
store the clamped target. A zero diff returns before touching anything. -/
def set_heater (s : RoasterState) (value : ℚ) : RoasterState :=
  let value := clamp 0 9 (itrunc value)
  let current := itrunc s.status.heater
  let diff := (current - value).natAbs
  if diff = 0 then s
  else
    let cmds := if current > value then List.replicate diff AILLIO_CMD_HEATER_DECR
                else List.replicate diff AILLIO_CMD_HEATER_INCR
    { s with command_queue := s.command_queue ++ cmds,
             status := { s.status with heater := (value : ℚ) } }

/-- Method `set_fan(value)`: truncate and clamp to `[1, 12]`, diff against
`int(self.fan)`, enqueue `diff` step frames, then optimistically store the
clamped target. A zero diff returns before touching anything. -/
def set_fan (s : RoasterState) (value : ℚ) : RoasterState :=
  let value := clamp 1 12 (itrunc value)
  let current := itrunc s.status.fan
  let diff := (current - value).natAbs
  if diff = 0 then s
  else
    let cmds := if current > value then List.replicate diff AILLIO_CMD_FAN_DECR
                else List.replicate diff AILLIO_CMD_FAN_INCR
    { s with command_queue := s.command_queue ++ cmds,
             status := { s.status with fan := (value : ℚ) } }

/-- Method `set_drum(value)`: truncate and clamp to `[1, 9]`,
unconditionally enqueue one absolute-set frame, then store the clamped
target. There is no zero-diff early return in the source. -/
def set_drum (s : RoasterState) (value : ℚ) : RoasterState :=
  let value := clamp 1 9 (itrunc value)
  { s with command_queue := s.command_queue ++ [drumCmd value],
           status := { s.status with drum := (value : ℚ) } }

/-- Invariant claimed by the spec for the locally-held model: heater in
`[0,9]`, fan in `[1,12]`, drum in `[1,9]`. -/
def rangesOK (s : RoasterState) : Prop :=
  0 ≤ s.status.heater ∧ s.status.heater ≤ 9 ∧
  1 ≤ s.status.fan ∧ s.status.fan ≤ 12 ∧
  1 ≤ s.status.drum ∧ s.status.drum ≤ 9

instance (s : RoasterState) : Decidable (rangesOK s) := by
  unfold rangesOK; infer_instance

/-- Prior state for the C4 counterexample: a snapshot whose bean
temperature field holds a distinctive prior value. -/
def shortReplyPrior : RoasterState :=
  { initState with status := { initState.status with bt := 999 } }

/-- First (truncated) status reply for the C4 counterexample: 22 zero
bytes. -/
def shortReply1 : List ℕ := List.replicate 22 0

/-- Second (truncated) status reply for the C4 counterexample: 22 bytes
placing 1 at combined offset 36 (bean-temperature float) and the validity
sentinel 10 at combined offset 41. The combined buffer has only 44 bytes,
so the decode fails at the fan-RPM field after several fields were already
assigned. -/
def shortReply2 : List ℕ :=
  [0, 0, 0, 0, 0, 0, 0, 0, 0, 0, 0, 0, 0, 0, 1, 0, 0, 0, 0, 10, 0, 0]

/-- Concrete 128-byte status buffer for the C6 witness: validity byte 10
at offset 41, bean-temperature byte 1 at offset 36, fan 3, heater 4,
drum 5, state 6 (roasting), fan-RPM byte 2 at offset 44, voltage byte 7
at offset 48, zero elsewhere. -/
def offsetsBuf : List ℕ :=
  (((((((((List.replicate 128 0).set 41 10).set 36 1).set 26 3).set
      27 4).set 28 5).set 29 6).set 44 2).set 48 7)

/-- Accepted 128-byte status buffer whose heater byte (offset 27) is 200,
used as the C7 counterexample: the decode copies the raw byte into the
locally-held heater with no clamping. -/
def outOfRangeBuf : List ℕ := ((List.replicate 128 0).set 41 10).set 27 200

/-- Snapshot with label "roasting", the prior label in the C9 witness. -/
def roastingSnapshot : StatusModel :=
  { initState.status with state_str := "roasting" }

/-! ### Helper lemmas -/

/-- The cross-multiplication subtraction used in the rate-limit guard is
ordinary rational subtraction. -/
theorem qsub_eq_sub (a b : ℚ) : qsub a b = a - b := (Rat.sub_def' a b).symm

/-- Truncation toward zero is the identity on integers. -/
theorem itrunc_intCast (n : ℤ) : itrunc (n : ℚ) = n := by
  unfold itrunc
  rw [Rat.num_intCast, Rat.den_intCast]
  cases n with
  | ofNat m => simp [Int.tdiv, Nat.div_one]
  | negSucc m =>
      simp [Int.tdiv, Nat.div_one, Int.negSucc_eq]

/-- Lower bound of the Python clamp `max(lo, min(hi, x))`. -/
theorem clamp_lower (lo hi x : ℤ) : lo ≤ clamp lo hi x := le_max_left _ _

/-- Upper bound of the Python clamp `max(lo, min(hi, x))`. -/
theorem clamp_upper (lo hi x : ℤ) (h : lo ≤ hi) : clamp lo hi x ≤ hi :=
  max_le h (min_le_left _ _)

/-- Draining leaves everything except the head of the queue in place. -/
theorem process_cq_fst (s : RoasterState) :
    (process_command_queue s).1 =
      { s with command_queue := s.command_queue.drop 1 } := by
  rcases s with ⟨st, cq, ts⟩
  cases cq <;> rfl

/-- The frames sent by a drain are the head of the queue, if any. -/
theorem process_cq_snd (s : RoasterState) :
    (process_command_queue s).2 = s.command_queue.take 1 := by
  rcases s with ⟨st, cq, ts⟩
  cases cq <;> rfl

/-- A status update never touches the command queue. -/
theorem update_status_cq (s : RoasterState) (now : ℚ) (r1 r2 : Option (List ℕ)) :
    (update_status s now r1 r2).1.command_queue = s.command_queue := by
  unfold update_status
  split
  · rfl
  · split <;> rfl

/-- The timestamp after a status update: kept when the guard short-circuits,
set to the current time otherwise — regardless of read or decode success. -/
theorem update_status_last (s : RoasterState) (now : ℚ) (r1 r2 : Option (List ℕ)) :
    (update_status s now r1 r2).1.last_status_update =
      if qsub now s.last_status_update < status_update_interval
      then s.last_status_update else now := by
  unfold update_status
  split
  · simp_all
  · split <;> simp_all

/-- The frames sent by a status update: none when the guard short-circuits,
the two status requests otherwise. -/
theorem update_status_sent (s : RoasterState) (now : ℚ) (r1 r2 : Option (List ℕ)) :
    (update_status s now r1 r2).2.2 =
      if qsub now s.last_status_update < status_update_interval
      then [] else [AILLIO_CMD_STATUS1, AILLIO_CMD_STATUS2] := by
  unfold update_status
  split
  · simp_all
  · split <;> simp_all

/-- A decode whose buffer is out of range at index 41 or carries a validity
byte other than 10 returns the model unchanged with result `False`. -/
theorem decodeStatus_reject (m : StatusModel) (l : List ℕ)
    (h : l.get? 41 ≠ some 10) : decodeStatus m l = (m, false) := by
  unfold decodeStatus
  split
  · rfl
  · next valid heq =>
      have hne : valid ≠ 10 := by
        intro h10
        exact h (by rw [heq, h10])
      simp [hne]

/-! ### Claims -/

/-- C1: for every call to `set_heater(target)` with the target truncated and
clamped to `[0,9]` (and analogously `set_fan` with clamp to `[1,12]`):
exactly `|clamp(target) - current|` step commands are appended to the
command queue, all of them increment commands when `clamp(target) >
current` and all of them decrement commands when `clamp(target) <
current`, and immediately after the call the locally-held setpoint equals
`clamp(target)`, independent of any device confirmation (no reply is
involved). The hypotheses say that the stored setpoints are
integer-valued, which holds in every reachable state. -/
theorem set_heater_fan_step_delta (s : RoasterState) (v w : ℚ)
    (hh : ((itrunc s.status.heater : ℤ) : ℚ) = s.status.heater)
    (hf : ((itrunc s.status.fan : ℤ) : ℚ) = s.status.fan) :
    ((set_heater s v).command_queue =
        s.command_queue ++
          List.replicate (clamp 0 9 (itrunc v) - itrunc s.status.heater).natAbs
            (if clamp 0 9 (itrunc v) < itrunc s.status.heater
             then AILLIO_CMD_HEATER_DECR else AILLIO_CMD_HEATER_INCR) ∧
      (set_heater s v).status.heater = ((clamp 0 9 (itrunc v) : ℤ) : ℚ)) ∧
    ((set_fan s w).command_queue =
        s.command_queue ++
          List.replicate (clamp 1 12 (itrunc w) - itrunc s.status.fan).natAbs
            (if clamp 1 12 (itrunc w) < itrunc s.status.fan
             then AILLIO_CMD_FAN_DECR else AILLIO_CMD_FAN_INCR) ∧
      (set_fan s w).status.fan = ((clamp 1 12 (itrunc w) : ℤ) : ℚ)) := by
  constructor
  · have hc : (clamp 0 9 (itrunc v) - itrunc s.status.heater).natAbs
        = (itrunc s.status.heater - clamp 0 9 (itrunc v)).natAbs := by omega
    unfold set_heater
    rw [hc]
    by_cases h0 : (itrunc s.status.heater - clamp 0 9 (itrunc v)).natAbs = 0
    · have he : clamp 0 9 (itrunc v) = itrunc s.status.heater := by omega
      rw [if_pos h0, h0]
      exact ⟨by simp, by rw [he]; exact hh.symm⟩
    · rw [if_neg h0]
      refine ⟨?_, rfl⟩
      show s.command_queue ++ _ = s.command_queue ++ _
      congr 1
      simp only [gt_iff_lt]
      split <;> rfl
  · have hc : (clamp 1 12 (itrunc w) - itrunc s.status.fan).natAbs
        = (itrunc s.status.fan - clamp 1 12 (itrunc w)).natAbs := by omega
    unfold set_fan
    rw [hc]
    by_cases h0 : (itrunc s.status.fan - clamp 1 12 (itrunc w)).natAbs = 0
    · have he : clamp 1 12 (itrunc w) = itrunc s.status.fan := by omega
      rw [if_pos h0, h0]
      exact ⟨by simp, by rw [he]; exact hf.symm⟩
    · rw [if_neg h0]
      refine ⟨?_, rfl⟩
      show s.command_queue ++ _ = s.command_queue ++ _
      congr 1
      simp only [gt_iff_lt]
      split <;> rfl

/-- Witness for C1 at the spec scenarios: from the freshly constructed
state (heater 0, fan 1), `set_heater 9` appends nine increment frames and
`set_fan 20` clamps to 12 and appends eleven increment frames. -/
theorem set_heater_fan_step_delta_witness :
    (((itrunc initState.status.heater : ℤ) : ℚ) = initState.status.heater ∧
     ((itrunc initState.status.fan : ℤ) : ℚ) = initState.status.fan) ∧
    (((set_heater initState 9).command_queue =
        initState.command_queue ++
          List.replicate (clamp 0 9 (itrunc 9) - itrunc initState.status.heater).natAbs
            (if clamp 0 9 (itrunc 9) < itrunc initState.status.heater
             then AILLIO_CMD_HEATER_DECR else AILLIO_CMD_HEATER_INCR) ∧
      (set_heater initState 9).status.heater = ((clamp 0 9 (itrunc 9) : ℤ) : ℚ)) ∧
    ((set_fan initState 20).command_queue =
        initState.command_queue ++
          List.replicate (clamp 1 12 (itrunc 20) - itrunc initState.status.fan).natAbs
            (if clamp 1 12 (itrunc 20) < itrunc initState.status.fan
             then AILLIO_CMD_FAN_DECR else AILLIO_CMD_FAN_INCR) ∧
      (set_fan initState 20).status.fan = ((clamp 1 12 (itrunc 20) : ℤ) : ℚ))) :=
  ⟨⟨by decide, by decide⟩,
   set_heater_fan_step_delta initState 9 20 (by decide) (by decide)⟩

/-- C2 counterexample: `set_drum` is not an idempotent no-op. From the
freshly constructed state (drum already 1), `set_drum 1` has a clamped
target equal to the locally-held drum value, yet it changes the queue by
appending one absolute-set frame. -/
theorem set_drum_enqueues_when_equal :
    ((clamp 1 9 (itrunc 1) : ℤ) : ℚ) = initState.status.drum ∧
    (set_drum initState 1).command_queue ≠ initState.command_queue ∧
    (set_drum initState 1).command_queue =
      initState.command_queue ++ [drumCmd 1] := by decide

/-- C2 amended: `set_heater` and `set_fan` are idempotent no-ops when the
truncated-and-clamped target equals the truncation of the locally-held
value — the call enqueues zero commands and leaves the whole state
unchanged. `set_drum`, by contrast, always appends exactly one
absolute-set frame carrying the clamped value, even when the clamped
target equals the locally-held drum value. -/
theorem set_heater_fan_idempotent_drum_not (s : RoasterState) (v w u : ℚ)
    (hv : clamp 0 9 (itrunc v) = itrunc s.status.heater)
    (hw : clamp 1 12 (itrunc w) = itrunc s.status.fan) :
    set_heater s v = s ∧ set_fan s w = s ∧
    (set_drum s u).command_queue =
      s.command_queue ++ [drumCmd (clamp 1 9 (itrunc u))] := by
  refine ⟨?_, ?_, rfl⟩
  · unfold set_heater
    rw [hv]
    simp
  · unfold set_fan
    rw [hw]
    simp

/-- Witness for C2 amended: at the freshly constructed state with targets
0 (heater), 1 (fan) and 1 (drum). -/
theorem set_heater_fan_idempotent_drum_not_witness :
    (clamp 0 9 (itrunc 0) = itrunc initState.status.heater ∧
     clamp 1 12 (itrunc 1) = itrunc initState.status.fan) ∧
    (set_heater initState 0 = initState ∧ set_fan initState 1 = initState ∧
     (set_drum initState 1).command_queue =
       initState.command_queue ++ [drumCmd (clamp 1 9 (itrunc 1))]) :=
  ⟨⟨by decide, by decide⟩,
   set_heater_fan_idempotent_drum_not initState 0 1 1 (by decide) (by decide)⟩

/-- C3 counterexample: a command-drain and a status-poll both occur on one
tick. With one queued heater-increment frame, a tick at time 1 (poll due)
pops and transmits that frame and still sends both status requests, so
three frames go on the wire in a single `update_readings` call. -/
theorem drain_and_poll_same_tick :
    ({ initState with
        command_queue := [AILLIO_CMD_HEATER_INCR] } : RoasterState).command_queue ≠ [] ∧
    (update_readings { initState with command_queue := [AILLIO_CMD_HEATER_INCR] }
        1 none none).2.2 =
      [AILLIO_CMD_HEATER_INCR, AILLIO_CMD_STATUS1, AILLIO_CMD_STATUS2] := by
  decide

/-- C3 amended: on every tick, at most one command is drained (the head of
the queue), and a status poll is attempted on the same tick regardless of
whether a command was drained — the only thing that suppresses the status
round trip is the rate-limit guard. The frames sent by a tick are the
drained command, if any, followed by the two status requests when the poll
interval has elapsed. -/
theorem tick_drains_head_then_polls (s : RoasterState) (now : ℚ)
    (r1 r2 : Option (List ℕ)) :
    (update_readings s now r1 r2).2.2 =
      s.command_queue.take 1 ++
        (if now - s.last_status_update < status_update_interval then []
         else [AILLIO_CMD_STATUS1, AILLIO_CMD_STATUS2]) ∧
    (update_readings s now r1 r2).1.command_queue = s.command_queue.drop 1 := by
  rw [← qsub_eq_sub]
  constructor
  · show (process_command_queue s).2 ++ _ = _
    rw [process_cq_snd, update_status_sent, process_cq_fst]
  · show (update_status (process_command_queue s).1 now r1 r2).1.command_queue = _
    rw [update_status_cq, process_cq_fst]

/-- C4 counterexample: a short reply pair whose combined 44-byte buffer
carries validity byte 10 does not leave the Status Model unchanged — the
decode aborts at the fan-RPM field, but the bean-temperature field has
already been overwritten (prior 999, after 1), even though the tick
reports failure. -/
theorem short_reply_partial_update :
    (shortReply1 ++ shortReply2).length = 44 ∧
    (shortReply1 ++ shortReply2).get? 41 = some 10 ∧
    shortReplyPrior.status.bt = 999 ∧
    (update_status shortReplyPrior 1 (some shortReply1) (some shortReply2)).2.1
      = false ∧
    (update_status shortReplyPrior 1 (some shortReply1)
        (some shortReply2)).1.status.bt = 1 := by decide

/-- C4 amended: a rejected decode preserves every Status Model field. For
every reply pair that is missing or empty on either side, and for every
combined buffer (in particular every 128-byte buffer) whose byte at offset
41 is absent or differs from the sentinel 10, the status update leaves the
whole Status Model exactly at its prior value. Short accepted buffers
(validity byte 10 but too few bytes for all fields) are excluded: there
the source performs a partial update. -/
theorem rejected_decode_preserves_status (s : RoasterState) (now : ℚ)
    (r1 r2 : Option (List ℕ))
    (h : truthy r1 = false ∨ truthy r2 = false ∨
      (r1.getD [] ++ r2.getD []).get? 41 ≠ some 10) :
    (update_status s now r1 r2).1.status = s.status := by
  unfold update_status
  split
  · rfl
  · by_cases ht : truthy r1 && truthy r2
    · rw [if_pos ht]
      have h41 : (r1.getD [] ++ r2.getD []).get? 41 ≠ some 10 := by
        rcases h with h | h | h
        · rw [Bool.and_eq_true] at ht
          rw [ht.1] at h
          exact absurd h (by simp)
        · rw [Bool.and_eq_true] at ht
          rw [ht.2] at h
          exact absurd h (by simp)
        · exact h
      simp [decodeStatus_reject s.status (r1.getD [] ++ r2.getD []) h41]
    · rw [if_neg ht]

/-- Witness for C4 amended: a full 128-byte buffer whose validity byte is
9 leaves a prior bean temperature of 200 (and the rest of the snapshot)
unchanged. -/
theorem rejected_decode_preserves_status_witness :
    (truthy (some ((((List.replicate 128 0).set 41 9)).take 64)) = false ∨
     truthy (some ((((List.replicate 128 0).set 41 9)).drop 64)) = false ∨
     ((some ((((List.replicate 128 0).set 41 9)).take 64)).getD [] ++
       (some ((((List.replicate 128 0).set 41 9)).drop 64)).getD []).get? 41
        ≠ some 10) ∧
    (update_status
        { initState with status := { initState.status with bt := 200 } } 1
        (some ((((List.replicate 128 0).set 41 9)).take 64))
        (some ((((List.replicate 128 0).set 41 9)).drop 64))).1.status =
      { initState with status := { initState.status with bt := 200 } }.status :=
  ⟨Or.inr (Or.inr (by decide)),
   rejected_decode_preserves_status
     { initState with status := { initState.status with bt := 200 } } 1
     (some ((((List.replicate 128 0).set 41 9)).take 64))
     (some ((((List.replicate 128 0).set 41 9)).drop 64))
     (Or.inr (Or.inr (by decide)))⟩

/-- C5 counterexample: the last-poll timestamp is updated on a failed
round trip. From the freshly constructed state (timestamp 0), a tick at
time 1 whose two status reads are both missing returns failure, yet the
timestamp becomes 1. -/
theorem timestamp_updated_on_failed_poll :
    initState.last_status_update = 0 ∧
    (update_status initState 1 none none).2.1 = false ∧
    (update_status initState 1 none none).1.last_status_update = 1 := by decide

/-- C5 amended: the last-poll timestamp records the last attempted poll,
not the last successful one. It is set to the current time exactly when
the rate-limit guard passes — before any send, read or decode — so it is
updated even on a tick whose status read or decode fails, and kept only
when the guard short-circuits the tick. -/
theorem timestamp_records_attempted_polls (s : RoasterState) (now : ℚ)
    (r1 r2 : Option (List ℕ)) :
    (update_status s now r1 r2).1.last_status_update =
      if now - s.last_status_update < status_update_interval
      then s.last_status_update else now := by
  rw [← qsub_eq_sub]
  exact update_status_last s now r1 r2

/-- C6: for every accepted 128-byte status buffer (validity byte 10 at
offset 41), decoding succeeds and assigns the fields from exactly the
documented offsets and formats: rate-of-rise from the 32-bit float at
bytes 4 to 8, drum (NTC) temperature from the 32-bit float at bytes 8 to
12, fan, heater, drum and state from the single unsigned bytes at offsets
26, 27, 28 and 29, the authoritative bean temperature from the IBTS 32-bit
float at bytes 36 to 40 (the legacy field at bytes 0 to 4 plays no role in
the result, which is fully determined by the offsets listed here), fan RPM
from the signed 16-bit at bytes 44 to 46, and voltage from the signed
16-bit at bytes 48 to 50. The decoded values are named by the `unpack`
hypotheses, which pin each field to its offsets. -/
theorem decode_field_offsets (m : StatusModel) (l : List ℕ)
    (btv rorv dtv fanb heaterb drumb stateb : ℕ) (rpmv voltv : ℤ)
    (_hlen : l.length = 128)
    (hvalid : l.get? 41 = some 10)
    (hbt : unpackF (pyslice l 36 40) = some btv)
    (hror : unpackF (pyslice l 4 8) = some rorv)
    (hdt : unpackF (pyslice l 8 12) = some dtv)
    (hfan : l.get? 26 = some fanb)
    (hheater : l.get? 27 = some heaterb)
    (hdrum : l.get? 28 = some drumb)
    (hstate : l.get? 29 = some stateb)
    (hrpm : unpackH (pyslice l 44 46) = some rpmv)
    (hvolt : unpackH (pyslice l 48 50) = some voltv) :
    decodeStatus m l =
      (update_state_string
        { m with bt := btv, bt_ror := rorv, dt := dtv,
                 fan := (fanb : ℚ), heater := (heaterb : ℚ),
                 drum := (drumb : ℚ), state := stateb,
                 fan_rpm := rpmv, voltage := voltv }, true) := by
  unfold decodeStatus
  rw [hvalid, hbt, hror, hdt, hfan, hheater, hdrum, hstate, hrpm, hvolt]
  simp

set_option maxRecDepth 40000 in
/-- Witness for C6: decoding `offsetsBuf` from the freshly constructed
snapshot assigns every field from its documented offset and reports
success. -/
theorem decode_field_offsets_witness :
    (offsetsBuf.length = 128 ∧ offsetsBuf.get? 41 = some 10 ∧
     unpackF (pyslice offsetsBuf 36 40) = some 1 ∧
     unpackF (pyslice offsetsBuf 4 8) = some 0 ∧
     unpackF (pyslice offsetsBuf 8 12) = some 0 ∧
     offsetsBuf.get? 26 = some 3 ∧ offsetsBuf.get? 27 = some 4 ∧
     offsetsBuf.get? 28 = some 5 ∧ offsetsBuf.get? 29 = some 6 ∧
     unpackH (pyslice offsetsBuf 44 46) = some 2 ∧
     unpackH (pyslice offsetsBuf 48 50) = some 7) ∧
    decodeStatus initState.status offsetsBuf =
      (update_state_string
        { bt := 1, bt_ror := 0, dt := 0, fan_rpm := 2, voltage := 7,
          heater := ((4 : ℕ) : ℚ), fan := ((3 : ℕ) : ℚ),
          drum := ((5 : ℕ) : ℚ), state := 6,
          state_str := initState.status.state_str }, true) :=
  ⟨⟨by decide, by decide, by decide, by decide, by decide, by decide,
    by decide, by decide, by decide, by decide, by decide⟩,
   decode_field_offsets initState.status offsetsBuf 1 0 0 3 4 5 6 2 7
     (by decide) (by decide) (by decide) (by decide) (by decide) (by decide)
     (by decide) (by decide) (by decide) (by decide) (by decide)⟩

set_option maxRecDepth 40000 in
/-- C7 counterexample: the ranges invariant is not preserved by every
operation. Starting from the freshly constructed state (where it holds),
one status update with an accepted buffer reporting heater byte 200 yields
a locally-held heater of 200, outside `[0, 9]` (and the zero fan byte
yields fan 0, outside `[1, 12]`). -/
theorem decode_breaks_ranges :
    rangesOK initState ∧
    (update_status initState 1 (some (outOfRangeBuf.take 64))
        (some (outOfRangeBuf.drop 64))).1.status.heater = 200 ∧
    ¬ (update_status initState 1 (some (outOfRangeBuf.take 64))
        (some (outOfRangeBuf.drop 64))).1.status.heater ≤ 9 := by decide

/-- C7 amended: the ranges invariant (heater in `[0,9]`, fan in `[1,12]`,
drum in `[1,9]`) holds initially and is preserved by each of the three
setters, which clamp every external setpoint request; it is not enforced
by the status decode, which copies raw device-reported bytes. -/
theorem setters_preserve_ranges (s : RoasterState) (v w u : ℚ)
    (h : rangesOK s) :
    rangesOK initState ∧ rangesOK (set_heater s v) ∧
    rangesOK (set_fan s w) ∧ rangesOK (set_drum s u) := by
  obtain ⟨h1, h2, h3, h4, h5, h6⟩ := h
  refine ⟨by decide, ?_, ?_, ?_⟩
  · simp only [rangesOK, set_heater]
    split
    · exact ⟨h1, h2, h3, h4, h5, h6⟩
    · refine ⟨?_, ?_, h3, h4, h5, h6⟩
      · show (0 : ℚ) ≤ ((clamp 0 9 (itrunc v) : ℤ) : ℚ)
        exact_mod_cast clamp_lower 0 9 (itrunc v)
      · show ((clamp 0 9 (itrunc v) : ℤ) : ℚ) ≤ 9
        exact_mod_cast clamp_upper 0 9 (itrunc v) (by norm_num)
  · simp only [rangesOK, set_fan]
    split
    · exact ⟨h1, h2, h3, h4, h5, h6⟩
    · refine ⟨h1, h2, ?_, ?_, h5, h6⟩
      · show (1 : ℚ) ≤ ((clamp 1 12 (itrunc w) : ℤ) : ℚ)
        exact_mod_cast clamp_lower 1 12 (itrunc w)
      · show ((clamp 1 12 (itrunc w) : ℤ) : ℚ) ≤ 12
        exact_mod_cast clamp_upper 1 12 (itrunc w) (by norm_num)
  · simp only [rangesOK, set_drum]
    refine ⟨h1, h2, h3, h4, ?_, ?_⟩
    · show (1 : ℚ) ≤ ((clamp 1 9 (itrunc u) : ℤ) : ℚ)
      exact_mod_cast clamp_lower 1 9 (itrunc u)
    · show ((clamp 1 9 (itrunc u) : ℤ) : ℚ) ≤ 9
      exact_mod_cast clamp_upper 1 9 (itrunc u) (by norm_num)

/-- Witness for C7 amended: from the freshly constructed state, setting
heater 100, fan -3 and drum 99 keeps every setpoint in range. -/
theorem setters_preserve_ranges_witness :
    rangesOK initState ∧
    (rangesOK initState ∧ rangesOK (set_heater initState 100) ∧
     rangesOK (set_fan initState (-3)) ∧ rangesOK (set_drum initState 99)) :=
  ⟨by decide, setters_preserve_ranges initState 100 (-3) 99 (by decide)⟩

/-- A tick from an empty queue whose rate-limit guard short-circuits is a
complete no-op: no frames are sent and the state is returned unchanged. -/
theorem update_readings_skip (s : RoasterState) (now : ℚ)
    (r1 r2 : Option (List ℕ)) (hq : s.command_queue = [])
    (hg : qsub now s.last_status_update < status_update_interval) :
    update_readings s now r1 r2 = (s, false, []) := by
  have hp : process_command_queue s = (s, []) := by
    unfold process_command_queue
    rw [hq]
  simp [update_readings, hp, update_status, hg]

/-- C8: polling is rate-limited. For two consecutive ticks with nothing
queued, when the first tick is due (at least the minimum interval after
the recorded poll time) and the second tick comes less than the minimum
interval after the first, the first tick sends exactly the two
status-request frames while the second sends nothing and changes nothing —
two ticks within the interval perform exactly one status round trip, not
two, whatever the replies were. -/
theorem poll_rate_limited (s : RoasterState) (t1 t2 : ℚ)
    (r1 r2 r3 r4 : Option (List ℕ))
    (hq : s.command_queue = [])
    (h1 : ¬ (t1 - s.last_status_update < status_update_interval))
    (h2 : t2 - t1 < status_update_interval) :
    (update_readings s t1 r1 r2).2.2 =
      [AILLIO_CMD_STATUS1, AILLIO_CMD_STATUS2] ∧
    (update_readings (update_readings s t1 r1 r2).1 t2 r3 r4).2.2 = [] ∧
    (update_readings (update_readings s t1 r1 r2).1 t2 r3 r4).1 =
      (update_readings s t1 r1 r2).1 := by
  rw [← qsub_eq_sub] at h1
  have e1 : (update_readings s t1 r1 r2).2.2 =
      [AILLIO_CMD_STATUS1, AILLIO_CMD_STATUS2] := by
    show (process_command_queue s).2 ++
      (update_status (process_command_queue s).1 t1 r1 r2).2.2 = _
    rw [process_cq_snd, update_status_sent, process_cq_fst]
    simp [hq, h1]
  have ecq : (update_readings s t1 r1 r2).1.command_queue = [] := by
    show (update_status (process_command_queue s).1 t1 r1 r2).1.command_queue = []
    rw [update_status_cq, process_cq_fst]
    simp [hq]
  have elast : (update_readings s t1 r1 r2).1.last_status_update = t1 := by
    show (update_status (process_command_queue s).1 t1 r1 r2).1.last_status_update = t1
    rw [update_status_last, process_cq_fst]
    simp [h1]
  have hg2 : qsub t2 (update_readings s t1 r1 r2).1.last_status_update <
      status_update_interval := by
    rw [elast, qsub_eq_sub]
    exact h2
  have hskip := update_readings_skip (update_readings s t1 r1 r2).1 t2 r3 r4
    ecq hg2
  exact ⟨e1, by rw [hskip], by rw [hskip]⟩

/-- Witness for C8: from the freshly constructed state, a tick at time 1
polls (sending the two status requests) and a second tick at time 21/20 —
only a twentieth of a second later — sends nothing and changes nothing. -/
theorem poll_rate_limited_witness :
    (initState.command_queue = [] ∧
     ¬ ((1 : ℚ) - initState.last_status_update < status_update_interval) ∧
     (mkRat 21 20 - 1 < status_update_interval)) ∧
    ((update_readings initState 1 none none).2.2 =
        [AILLIO_CMD_STATUS1, AILLIO_CMD_STATUS2] ∧
     (update_readings (update_readings initState 1 none none).1 (mkRat 21 20)
        none none).2.2 = [] ∧
     (update_readings (update_readings initState 1 none none).1 (mkRat 21 20)
        none none).1 = (update_readings initState 1 none none).1) :=
  ⟨⟨by decide, by rw [← qsub_eq_sub]; decide, by rw [← qsub_eq_sub]; decide⟩,
   poll_rate_limited initState 1 (mkRat 21 20) none none none none (by decide)
     (by rw [← qsub_eq_sub]; decide) (by rw [← qsub_eq_sub]; decide)⟩

/-- C9: the state-to-label mapping is total over raw state bytes and never
fails: each of the six known states (0x00, 0x02, 0x04, 0x06, 0x08, 0x09)
produces its label, and for every other raw state byte the
previously-held label is retained unchanged — not reset to "off" and not
blanked. -/
theorem state_label_total (m : StatusModel) (b : ℕ)
    (hb : b ≠ AILLIO_STATE_OFF ∧ b ≠ AILLIO_STATE_PH ∧
      b ≠ AILLIO_STATE_CHARGE ∧ b ≠ AILLIO_STATE_ROASTING ∧
      b ≠ AILLIO_STATE_COOLING ∧ b ≠ AILLIO_STATE_SHUTDOWN) :
    (update_state_string { m with state := AILLIO_STATE_OFF }).state_str
        = "off" ∧
    (update_state_string { m with state := AILLIO_STATE_PH }).state_str
        = "pre-heating" ∧
    (update_state_string { m with state := AILLIO_STATE_CHARGE }).state_str
        = "charge" ∧
    (update_state_string { m with state := AILLIO_STATE_ROASTING }).state_str
        = "roasting" ∧
    (update_state_string { m with state := AILLIO_STATE_COOLING }).state_str
        = "cooling" ∧
    (update_state_string { m with state := AILLIO_STATE_SHUTDOWN }).state_str
        = "shutdown" ∧
    (update_state_string { m with state := b }).state_str = m.state_str := by
  obtain ⟨b1, b2, b3, b4, b5, b6⟩ := hb
  simp only [AILLIO_STATE_OFF, AILLIO_STATE_PH, AILLIO_STATE_CHARGE,
    AILLIO_STATE_ROASTING, AILLIO_STATE_COOLING, AILLIO_STATE_SHUTDOWN]
    at b1 b2 b3 b4 b5 b6
  refine ⟨?_, ?_, ?_, ?_, ?_, ?_, ?_⟩ <;>
    simp [update_state_string, AILLIO_STATE_OFF, AILLIO_STATE_PH,
      AILLIO_STATE_CHARGE, AILLIO_STATE_ROASTING, AILLIO_STATE_COOLING,
      AILLIO_STATE_SHUTDOWN, b1, b2, b3, b4, b5, b6]

/-- Witness for C9 at the spec scenario: the unknown raw state byte 0x0A
leaves the prior label "roasting" unchanged, while the six known bytes map
to their labels. -/
theorem state_label_total_witness :
    ((10 : ℕ) ≠ AILLIO_STATE_OFF ∧ (10 : ℕ) ≠ AILLIO_STATE_PH ∧
     (10 : ℕ) ≠ AILLIO_STATE_CHARGE ∧ (10 : ℕ) ≠ AILLIO_STATE_ROASTING ∧
     (10 : ℕ) ≠ AILLIO_STATE_COOLING ∧ (10 : ℕ) ≠ AILLIO_STATE_SHUTDOWN) ∧
    ((update_state_string
        { roastingSnapshot with state := AILLIO_STATE_OFF }).state_str
        = "off" ∧
     (update_state_string
        { roastingSnapshot with state := AILLIO_STATE_PH }).state_str
        = "pre-heating" ∧
     (update_state_string
        { roastingSnapshot with state := AILLIO_STATE_CHARGE }).state_str
        = "charge" ∧
     (update_state_string
        { roastingSnapshot with state := AILLIO_STATE_ROASTING }).state_str
        = "roasting" ∧
     (update_state_string
        { roastingSnapshot with state := AILLIO_STATE_COOLING }).state_str
        = "cooling" ∧
     (update_state_string
        { roastingSnapshot with state := AILLIO_STATE_SHUTDOWN }).state_str
        = "shutdown" ∧
     (update_state_string
        { roastingSnapshot with state := (10 : ℕ) }).state_str
        = roastingSnapshot.state_str) :=
  ⟨by decide, state_label_total roastingSnapshot 10 (by decide)⟩

/-- C10: each setter truncates a fractional argument toward zero before
clamping: calling a setter on a rational argument behaves exactly as
calling it on the integer obtained by truncation toward zero, so
`set_heater` at 8.9 (the rational 89/10) yields a locally-held heater of
8, not 9, and `itrunc` truncates toward zero on both signs. -/
theorem setters_truncate_toward_zero (s : RoasterState) (v : ℚ) :
    set_heater s v = set_heater s ((itrunc v : ℤ) : ℚ) ∧
    set_fan s v = set_fan s ((itrunc v : ℤ) : ℚ) ∧
    set_drum s v = set_drum s ((itrunc v : ℤ) : ℚ) ∧
    mkRat 89 10 = (89 : ℚ) / 10 ∧
    itrunc (mkRat 89 10) = 8 ∧
    itrunc (-(mkRat 89 10)) = -8 ∧
    (set_heater initState (mkRat 89 10)).status.heater = 8 := by
  refine ⟨?_, ?_, ?_, ?_, by decide, by decide, by decide⟩
  · simp [set_heater, itrunc_intCast]
  · simp [set_fan, itrunc_intCast]
  · simp [set_drum, itrunc_intCast]
  · rw [Rat.mkRat_eq_divInt, Rat.divInt_eq_div]
    norm_num

/-- Witness for C10: the truncation equalities evaluated from the freshly
constructed state at the argument 8.9 (written as the rational 89/10). -/
theorem setters_truncate_toward_zero_witness :
    set_heater initState (mkRat 89 10)
        = set_heater initState ((itrunc (mkRat 89 10) : ℤ) : ℚ) ∧
    set_fan initState (mkRat 89 10)
        = set_fan initState ((itrunc (mkRat 89 10) : ℤ) : ℚ) ∧
    set_drum initState (mkRat 89 10)
        = set_drum initState ((itrunc (mkRat 89 10) : ℤ) : ℚ) ∧
    mkRat 89 10 = (89 : ℚ) / 10 ∧
    itrunc (mkRat 89 10) = 8 ∧
    itrunc (-(mkRat 89 10)) = -8 ∧
    (set_heater initState (mkRat 89 10)).status.heater = 8 :=
  setters_truncate_toward_zero initState (mkRat 89 10)
